import Mathlib

/-!
GimpColorSelection: the synchronisation controller of `gimpcolorselection.c`.

A shallow embedding of the controller logic of
`libgimpwidgets/gimpcolorselection.c`.  The controller owns one canonical
color and keeps five peer widgets (notebook, scales, hex entry, new-color
swatch, old-color swatch) in step with it.  Peer widgets live in other files;
they are embedded as records of the values last pushed into them, and every
call the controller makes on a peer, every handler block/unblock and every
`color-changed` emission is appended to an effect log kept in the state.

A `GeglColor` is an arbitrary type `Color`; the perceptual comparison
`gimp_color_is_perceptually_identical` is a parameter `identical`, because its
definition lives in libgimpcolor.
-/

namespace Gimp

/-! ## Data model -/

/-- C `gboolean` true. -/
def TRUE : Int := 1

/-- C `gboolean` false. -/
def FALSE : Int := 0

/-- Bit `UPDATE_NOTEBOOK` of the `UpdateType` mask. -/
def UPDATE_NOTEBOOK : Nat := 1 <<< 0

/-- Bit `UPDATE_SCALES` of the `UpdateType` mask. -/
def UPDATE_SCALES : Nat := 1 <<< 1

/-- Bit `UPDATE_ENTRY` of the `UpdateType` mask. -/
def UPDATE_ENTRY : Nat := 1 <<< 2

/-- Bit `UPDATE_COLOR` of the `UpdateType` mask. -/
def UPDATE_COLOR : Nat := 1 <<< 3

/-- The mask `UPDATE_ALL`. -/
def UPDATE_ALL : Nat := UPDATE_NOTEBOOK ||| UPDATE_SCALES ||| UPDATE_ENTRY ||| UPDATE_COLOR

/-- Bitwise complement `~x` of a 32-bit mask. -/
def bit_not (x : Nat) : Nat := (2 ^ 32 - 1) ^^^ x

/-- Modelled from the spec: the enum `GimpColorSelectorChannel` is declared in
another header; the spec describes it as the enum selecting a color-component
axis (hue, saturation, ...).  The source names `GIMP_COLOR_SELECTOR_HUE`. -/
inductive GimpColorSelectorChannel
  | HUE
  | SATURATION
  | VALUE
  | RED
  | GREEN
  | BLUE
  | ALPHA
  | LCH_LIGHTNESS
  | LCH_CHROMA
  | LCH_HUE
  deriving DecidableEq, Repr

/-- The enum `GimpColorAreaType`, declared in another header; the source names
`GIMP_COLOR_AREA_FLAT` and `GIMP_COLOR_AREA_SMALL_CHECKS`. -/
inductive GimpColorAreaType
  | FLAT
  | SMALL_CHECKS
  | LARGE_CHECKS
  deriving DecidableEq, Repr

/-- A `const Babl *` format handle. -/
abbrev Babl := Nat

/-- A `GimpColorProfile *` handle. -/
abbrev GimpColorProfile := Nat

/-- A `GimpColorConfig *` object handle (`NULL` is `none` at the use site). -/
abbrev GimpColorConfig := Nat

/-- The `GimpColorRenderingIntent` enum as a C integer. -/
abbrev GimpColorRenderingIntent := Int

/-- The five peer widgets the controller talks to. -/
inductive Peer
  | notebook
  | scales
  | entry
  | new_color
  | old_color
  deriving DecidableEq, Repr

/-- One observable action of the controller, in program order. -/
inductive Effect (Color : Type)
  | replace_color (c : Color)
  | handlers_block (p : Peer)
  | handlers_unblock (p : Peer)
  | set_color (p : Peer) (c : Color)
  | echo (p : Peer)
  | set_channel (p : Peer) (ch : GimpColorSelectorChannel)
  | set_show_alpha (p : Peer) (b : Int)
  | set_type (p : Peer) (t : GimpColorAreaType)
  | set_format (p : Peer) (f : Babl)
  | set_simulation (p : Peer) (profile : GimpColorProfile)
      (intent : GimpColorRenderingIntent) (bpc : Int)
  | set_config (p : Peer) (config : Option GimpColorConfig)
  | set_toggles_sensitive (p : Peer) (b : Int)
  | color_changed
  deriving DecidableEq, Repr

/-- Modelled from the spec: a `GimpColorSelector` peer (the notebook or the
scales), "exposing get/set current color, get/set active channel, toggle
visibility/sensitivity of channel toggles, set show-alpha, set
color-management config, set working format, set simulation".  The record
holds the value last set for each.  `current_has_set_channel` is whether the
class of the notebook's current page has a `set_channel` method. -/
structure GimpColorSelector (Color : Type) where
  color : Color
  channel : GimpColorSelectorChannel
  show_alpha : Int
  toggles_visible : Int
  toggles_sensitive : Int
  config : Option GimpColorConfig
  format : Option Babl
  simulation : Option (GimpColorProfile × GimpColorRenderingIntent × Int)
  current_has_set_channel : Bool
  deriving DecidableEq, Repr

/-- Modelled from the spec: a `GimpColorArea` swatch, "exposing get/set color,
set alpha-display mode, set color-management config". -/
structure GimpColorArea (Color : Type) where
  color : Color
  type : GimpColorAreaType
  config : Option GimpColorConfig
  deriving DecidableEq, Repr

/-- Modelled from the spec: a `GimpColorHexEntry`, "exposing get/set color". -/
structure GimpColorHexEntry (Color : Type) where
  color : Color
  deriving DecidableEq, Repr

/-- The fields of `struct _GimpColorSelection` that the controller logic uses,
the hex entry stored under the object-data key "color-hex-entry", the block
count GLib keeps for each of the four connected `color-changed` handlers, and
the effect log. -/
structure GimpColorSelection (Color : Type) where
  show_alpha : Int
  color : Color
  channel : GimpColorSelectorChannel
  notebook : GimpColorSelector Color
  scales : GimpColorSelector Color
  new_color : GimpColorArea Color
  old_color : GimpColorArea Color
  entry : GimpColorHexEntry Color
  notebook_blocked : Nat
  scales_blocked : Nat
  entry_blocked : Nat
  new_color_blocked : Nat
  log : List (Effect Color)
  deriving DecidableEq, Repr

variable {Color : Type}

/-- Append one effect to the log. -/
def record (s : GimpColorSelection Color) (e : Effect Color) : GimpColorSelection Color :=
  { s with log := s.log ++ [e] }

/-- The effects a call appended: the part of the log of `s1` after the log of `s`. -/
def emitted (s s1 : GimpColorSelection Color) : List (Effect Color) :=
  s1.log.drop s.log.length

/-- Block count of the `color-changed` handler connected to a peer; no handler
is connected to the old-color swatch. -/
def blocked (s : GimpColorSelection Color) : Peer → Nat
  | Peer.notebook => s.notebook_blocked
  | Peer.scales => s.scales_blocked
  | Peer.entry => s.entry_blocked
  | Peer.new_color => s.new_color_blocked
  | Peer.old_color => 0

/-- The call `g_signal_handlers_block_by_func` on a peer's handler. -/
def g_signal_handlers_block_by_func (s : GimpColorSelection Color) (p : Peer) :
    GimpColorSelection Color :=
  let s1 := record s (Effect.handlers_block p)
  match p with
  | Peer.notebook => { s1 with notebook_blocked := s1.notebook_blocked + 1 }
  | Peer.scales => { s1 with scales_blocked := s1.scales_blocked + 1 }
  | Peer.entry => { s1 with entry_blocked := s1.entry_blocked + 1 }
  | Peer.new_color => { s1 with new_color_blocked := s1.new_color_blocked + 1 }
  | Peer.old_color => s1

/-- The call `g_signal_handlers_unblock_by_func` on a peer's handler. -/
def g_signal_handlers_unblock_by_func (s : GimpColorSelection Color) (p : Peer) :
    GimpColorSelection Color :=
  let s1 := record s (Effect.handlers_unblock p)
  match p with
  | Peer.notebook => { s1 with notebook_blocked := s1.notebook_blocked - 1 }
  | Peer.scales => { s1 with scales_blocked := s1.scales_blocked - 1 }
  | Peer.entry => { s1 with entry_blocked := s1.entry_blocked - 1 }
  | Peer.new_color => { s1 with new_color_blocked := s1.new_color_blocked - 1 }
  | Peer.old_color => s1

/-- Modelled from the spec: pushing a color into a peer (the peer's
`set color`).  The peer stores the color.  For a peer with a connected
handler the peer then reports `color edited`; GLib drops that report while the
handler's block count is positive, and an `echo` effect records a report that
reaches an enabled handler. -/
def peer_set_color (s : GimpColorSelection Color) (p : Peer) (c : Color) :
    GimpColorSelection Color :=
  let s1 := record s (Effect.set_color p c)
  let s2 : GimpColorSelection Color :=
    match p with
    | Peer.notebook => { s1 with notebook := { s1.notebook with color := c } }
    | Peer.scales => { s1 with scales := { s1.scales with color := c } }
    | Peer.entry => { s1 with entry := { s1.entry with color := c } }
    | Peer.new_color => { s1 with new_color := { s1.new_color with color := c } }
    | Peer.old_color => { s1 with old_color := { s1.old_color with color := c } }
  if p ≠ Peer.old_color ∧ blocked s2 p = 0 then record s2 (Effect.echo p) else s2

/-! ## The controller -/

/-- The function `gimp_color_selection_update`: push the canonical color into
each peer selected by the mask, with that peer's handler blocked. -/
def gimp_color_selection_update (s : GimpColorSelection Color) (update : Nat) :
    GimpColorSelection Color :=
  let s1 :=
    if update &&& UPDATE_NOTEBOOK ≠ 0 then
      let a := g_signal_handlers_block_by_func s Peer.notebook
      let b := peer_set_color a Peer.notebook a.color
      g_signal_handlers_unblock_by_func b Peer.notebook
    else s
  let s2 :=
    if update &&& UPDATE_SCALES ≠ 0 then
      let a := g_signal_handlers_block_by_func s1 Peer.scales
      let b := peer_set_color a Peer.scales a.color
      g_signal_handlers_unblock_by_func b Peer.scales
    else s1
  let s3 :=
    if update &&& UPDATE_ENTRY ≠ 0 then
      let a := g_signal_handlers_block_by_func s2 Peer.entry
      let b := peer_set_color a Peer.entry a.color
      g_signal_handlers_unblock_by_func b Peer.entry
    else s2
  if update &&& UPDATE_COLOR ≠ 0 then
    let a := g_signal_handlers_block_by_func s3 Peer.new_color
    let b := peer_set_color a Peer.new_color a.color
    g_signal_handlers_unblock_by_func b Peer.new_color
  else s3

/-- The function `gimp_color_selection_color_changed`: emit "color-changed". -/
def gimp_color_selection_color_changed (s : GimpColorSelection Color) :
    GimpColorSelection Color :=
  record s Effect.color_changed

/-- The function `gimp_color_selection_set_color`.  The argument is `none` when
it fails `GEGL_IS_COLOR` (the `g_return_if_fail` path). -/
def gimp_color_selection_set_color (identical : Color → Color → Bool)
    (s : GimpColorSelection Color) (color : Option Color) : GimpColorSelection Color :=
  match color with
  | none => s
  | some color =>
    let old_color := s.color
    let s1 := record { s with color := color } (Effect.replace_color color)
    let update := UPDATE_ALL
    let update := if identical color old_color then update &&& bit_not UPDATE_COLOR else update
    let s2 := gimp_color_selection_update s1 update
    gimp_color_selection_color_changed s2

/-- The function `gimp_color_selection_get_color`: a duplicate of the canonical color. -/
def gimp_color_selection_get_color (s : GimpColorSelection Color) : Color :=
  s.color

/-- The function `gimp_color_selection_set_old_color`. -/
def gimp_color_selection_set_old_color (s : GimpColorSelection Color)
    (color : Option Color) : GimpColorSelection Color :=
  match color with
  | none => s
  | some color => peer_set_color s Peer.old_color color

/-- The function `gimp_color_selection_get_old_color`. -/
def gimp_color_selection_get_old_color (s : GimpColorSelection Color) : Color :=
  s.old_color.color

/-- The function `gimp_color_selection_reset`. -/
def gimp_color_selection_reset (identical : Color → Color → Bool)
    (s : GimpColorSelection Color) : GimpColorSelection Color :=
  let color := s.old_color.color
  gimp_color_selection_set_color identical s (some color)

/-- The function `gimp_color_selection_set_show_alpha`; `show_alpha` is a C `gboolean`. -/
def gimp_color_selection_set_show_alpha (s : GimpColorSelection Color) (show_alpha : Int) :
    GimpColorSelection Color :=
  if show_alpha ≠ s.show_alpha then
    let s1 := { s with show_alpha := if show_alpha ≠ 0 then TRUE else FALSE }
    let s2 := record { s1 with notebook := { s1.notebook with show_alpha := s1.show_alpha } }
      (Effect.set_show_alpha Peer.notebook s1.show_alpha)
    let s3 := record { s2 with scales := { s2.scales with show_alpha := s2.show_alpha } }
      (Effect.set_show_alpha Peer.scales s2.show_alpha)
    let t3 := if s3.show_alpha ≠ 0 then GimpColorAreaType.SMALL_CHECKS else GimpColorAreaType.FLAT
    let s4 := record { s3 with new_color := { s3.new_color with type := t3 } }
      (Effect.set_type Peer.new_color t3)
    let t4 := if s4.show_alpha ≠ 0 then GimpColorAreaType.SMALL_CHECKS else GimpColorAreaType.FLAT
    record { s4 with old_color := { s4.old_color with type := t4 } }
      (Effect.set_type Peer.old_color t4)
  else s

/-- The function `gimp_color_selection_get_show_alpha`. -/
def gimp_color_selection_get_show_alpha (s : GimpColorSelection Color) : Int :=
  s.show_alpha

/-- The function `gimp_color_selection_set_format`. -/
def gimp_color_selection_set_format (s : GimpColorSelection Color) (format : Babl) :
    GimpColorSelection Color :=
  let s1 := record { s with notebook := { s.notebook with format := some format } }
    (Effect.set_format Peer.notebook format)
  let s2 := record { s1 with scales := { s1.scales with format := some format } }
    (Effect.set_format Peer.scales format)
  record s2 Effect.color_changed

/-- The function `gimp_color_selection_set_simulation`. -/
def gimp_color_selection_set_simulation (s : GimpColorSelection Color)
    (profile : GimpColorProfile) (intent : GimpColorRenderingIntent) (bpc : Int) :
    GimpColorSelection Color :=
  let s1 := record
    { s with notebook := { s.notebook with simulation := some (profile, intent, bpc) } }
    (Effect.set_simulation Peer.notebook profile intent bpc)
  record s1 Effect.color_changed

/-- The function `gimp_color_selection_set_config`; `config` may be `NULL`. -/
def gimp_color_selection_set_config (s : GimpColorSelection Color)
    (config : Option GimpColorConfig) : GimpColorSelection Color :=
  let s1 := record { s with notebook := { s.notebook with config := config } }
    (Effect.set_config Peer.notebook config)
  let s2 := record { s1 with scales := { s1.scales with config := config } }
    (Effect.set_config Peer.scales config)
  let s3 := record { s2 with old_color := { s2.old_color with config := config } }
    (Effect.set_config Peer.old_color config)
  record { s3 with new_color := { s3.new_color with config := config } }
    (Effect.set_config Peer.new_color config)

/-! ## Signal handlers -/

/-- The handler `gimp_color_selection_switch_page`. -/
def gimp_color_selection_switch_page (s : GimpColorSelection Color) :
    GimpColorSelection Color :=
  let sensitive : Int := if s.notebook.current_has_set_channel then TRUE else FALSE
  record { s with scales := { s.scales with toggles_sensitive := sensitive } }
    (Effect.set_toggles_sensitive Peer.scales sensitive)

/-- The handler `gimp_color_selection_notebook_changed`. -/
def gimp_color_selection_notebook_changed (identical : Color → Color → Bool)
    (s : GimpColorSelection Color) (color : Color) : GimpColorSelection Color :=
  let old_color := s.color
  let s1 := record { s with color := color } (Effect.replace_color color)
  let update := UPDATE_SCALES ||| UPDATE_ENTRY
  let update := if ! identical color old_color then update ||| UPDATE_COLOR else update
  let s2 := gimp_color_selection_update s1 update
  gimp_color_selection_color_changed s2

/-- The handler `gimp_color_selection_scales_changed`. -/
def gimp_color_selection_scales_changed (identical : Color → Color → Bool)
    (s : GimpColorSelection Color) (color : Color) : GimpColorSelection Color :=
  let old_color := s.color
  let s1 := record { s with color := color } (Effect.replace_color color)
  let update := UPDATE_ENTRY ||| UPDATE_NOTEBOOK
  let update := if ! identical color old_color then update ||| UPDATE_COLOR else update
  let s2 := gimp_color_selection_update s1 update
  gimp_color_selection_color_changed s2

/-- The handler `gimp_color_selection_color_picked`; `rgb` may be `NULL`. -/
def gimp_color_selection_color_picked (identical : Color → Color → Bool)
    (s : GimpColorSelection Color) (rgb : Option Color) : GimpColorSelection Color :=
  match rgb with
  | some c => gimp_color_selection_set_color identical s (some c)
  | none => s

/-- The handler `gimp_color_selection_entry_changed`. -/
def gimp_color_selection_entry_changed (s : GimpColorSelection Color) :
    GimpColorSelection Color :=
  let s1 := record { s with color := s.entry.color } (Effect.replace_color s.entry.color)
  let s2 := gimp_color_selection_update s1 (UPDATE_NOTEBOOK ||| UPDATE_SCALES ||| UPDATE_COLOR)
  gimp_color_selection_color_changed s2

/-- The handler `gimp_color_selection_channel_changed`. -/
def gimp_color_selection_channel_changed (s : GimpColorSelection Color)
    (channel : GimpColorSelectorChannel) : GimpColorSelection Color :=
  let s1 := { s with channel := channel }
  record { s1 with notebook := { s1.notebook with channel := s1.channel } }
    (Effect.set_channel Peer.notebook s1.channel)

/-- The handler `gimp_color_selection_new_color_changed`. -/
def gimp_color_selection_new_color_changed (s : GimpColorSelection Color) :
    GimpColorSelection Color :=
  let s1 := record { s with color := s.new_color.color } (Effect.replace_color s.new_color.color)
  let s2 := gimp_color_selection_update s1 (UPDATE_NOTEBOOK ||| UPDATE_SCALES ||| UPDATE_ENTRY)
  gimp_color_selection_color_changed s2

/-! ## Construction -/

/-- Modelled from the spec: `gimp_color_selector_new` builds a selector peer
showing the given color and channel; its remaining settings start at the
toolkit defaults (alpha and toggles on, no config, format or simulation). -/
def gimp_color_selector_new (color : Color) (channel : GimpColorSelectorChannel) :
    GimpColorSelector Color :=
  { color := color, channel := channel, show_alpha := TRUE, toggles_visible := TRUE,
    toggles_sensitive := TRUE, config := none, format := none, simulation := none,
    current_has_set_channel := true }

/-- Modelled from the spec: `gimp_color_area_new` builds a swatch showing the
given color with the given type. -/
def gimp_color_area_new (color : Color) (type : GimpColorAreaType) : GimpColorArea Color :=
  { color := color, type := type, config := none }

/-- Modelled from the spec: `gimp_color_hex_entry_new` takes no color; the spec
gives the construction-time initial color as black, so a fresh entry shows
`black`. -/
def gimp_color_hex_entry_new (black : Color) : GimpColorHexEntry Color :=
  { color := black }

/-- The function `gimp_color_selection_init`; `black` is `gegl_color_new ("black")`.
Layout calls are left out; no handler is blocked and the log is empty. -/
def gimp_color_selection_init (black : Color) : GimpColorSelection Color :=
  let show_alpha := TRUE
  let color := black
  let channel := GimpColorSelectorChannel.HUE
  let notebook := { gimp_color_selector_new color channel with toggles_visible := FALSE }
  let type := if show_alpha ≠ 0 then GimpColorAreaType.SMALL_CHECKS else GimpColorAreaType.FLAT
  let new_color := gimp_color_area_new color type
  let old_color := gimp_color_area_new color type
  let scales := { gimp_color_selector_new color channel with
    toggles_visible := TRUE, show_alpha := show_alpha }
  let entry := gimp_color_hex_entry_new black
  { show_alpha := show_alpha, color := color, channel := channel, notebook := notebook,
    scales := scales, new_color := new_color, old_color := old_color, entry := entry,
    notebook_blocked := 0, scales_blocked := 0, entry_blocked := 0, new_color_blocked := 0,
    log := [] }

/-! ## Events -/

/-- Everything that can happen to the controller: the public operations and
the notifications of its peers. -/
inductive Event (Color : Type)
  | set_color (color : Option Color)
  | reset
  | set_old_color (color : Option Color)
  | set_show_alpha (show_alpha : Int)
  | set_format (format : Babl)
  | set_simulation (profile : GimpColorProfile) (intent : GimpColorRenderingIntent) (bpc : Int)
  | set_config (config : Option GimpColorConfig)
  | notebook_edited (color : Color)
  | scales_edited (color : Color)
  | entry_committed (color : Color)
  | new_color_edited (color : Color)
  | color_picked (rgb : Option Color)
  | channel_changed (channel : GimpColorSelectorChannel)
  | switch_page (has_set_channel : Bool)
  deriving DecidableEq, Repr

/-- Modelled from the spec: the notebook peer takes a user edit to `color` and
reports "color edited" with it; the handler runs unless it is blocked. -/
def notebook_edited (identical : Color → Color → Bool) (s : GimpColorSelection Color)
    (color : Color) : GimpColorSelection Color :=
  let s1 := { s with notebook := { s.notebook with color := color } }
  if s1.notebook_blocked = 0 then gimp_color_selection_notebook_changed identical s1 color else s1

/-- Modelled from the spec: the scales peer takes a user edit to `color` and
reports "color edited" with it; the handler runs unless it is blocked. -/
def scales_edited (identical : Color → Color → Bool) (s : GimpColorSelection Color)
    (color : Color) : GimpColorSelection Color :=
  let s1 := { s with scales := { s.scales with color := color } }
  if s1.scales_blocked = 0 then gimp_color_selection_scales_changed identical s1 color else s1

/-- Modelled from the spec: the hex entry accepts committed text parsing to
`color` and reports "color committed"; the handler runs unless it is blocked. -/
def entry_committed (s : GimpColorSelection Color) (color : Color) : GimpColorSelection Color :=
  let s1 := { s with entry := { s.entry with color := color } }
  if s1.entry_blocked = 0 then gimp_color_selection_entry_changed s1 else s1

/-- Modelled from the spec: the new-color swatch takes a direct edit (a drop)
to `color` and reports "color edited"; the handler runs unless it is blocked. -/
def new_color_edited (s : GimpColorSelection Color) (color : Color) : GimpColorSelection Color :=
  let s1 := { s with new_color := { s.new_color with color := color } }
  if s1.new_color_blocked = 0 then gimp_color_selection_new_color_changed s1 else s1

/-- Modelled from the spec: the scales peer switches its own channel to
`channel` and reports "channel changed"; that handler is never blocked. -/
def channel_changed (s : GimpColorSelection Color) (channel : GimpColorSelectorChannel) :
    GimpColorSelection Color :=
  let s1 := { s with scales := { s.scales with channel := channel } }
  gimp_color_selection_channel_changed s1 channel

/-- Modelled from the spec: the notebook switches to a page whose selector class
has a `set_channel` method or not, and reports "switch-page". -/
def switch_page (s : GimpColorSelection Color) (has_set_channel : Bool) :
    GimpColorSelection Color :=
  let s1 := { s with notebook := { s.notebook with current_has_set_channel := has_set_channel } }
  gimp_color_selection_switch_page s1

/-- One event applied to the controller. -/
def step (identical : Color → Color → Bool) (s : GimpColorSelection Color) :
    Event Color → GimpColorSelection Color
  | Event.set_color color => gimp_color_selection_set_color identical s color
  | Event.reset => gimp_color_selection_reset identical s
  | Event.set_old_color color => gimp_color_selection_set_old_color s color
  | Event.set_show_alpha show_alpha => gimp_color_selection_set_show_alpha s show_alpha
  | Event.set_format format => gimp_color_selection_set_format s format
  | Event.set_simulation profile intent bpc =>
      gimp_color_selection_set_simulation s profile intent bpc
  | Event.set_config config => gimp_color_selection_set_config s config
  | Event.notebook_edited color => notebook_edited identical s color
  | Event.scales_edited color => scales_edited identical s color
  | Event.entry_committed color => entry_committed s color
  | Event.new_color_edited color => new_color_edited s color
  | Event.color_picked rgb => gimp_color_selection_color_picked identical s rgb
  | Event.channel_changed channel => channel_changed s channel
  | Event.switch_page has_set_channel => switch_page s has_set_channel

/-- A sequence of events applied in order. -/
def run (identical : Color → Color → Bool) (s : GimpColorSelection Color)
    (events : List (Event Color)) : GimpColorSelection Color :=
  events.foldl (step identical) s

/-! ## Reading the effect log -/

/-- The three effects of one guarded push of `c` into peer `p`: block the
peer's handler, set the peer's color, unblock the handler. -/
def push_effects (p : Peer) (c : Color) : List (Effect Color) :=
  [Effect.handlers_block p, Effect.set_color p c, Effect.handlers_unblock p]

/-- The effects `gimp_color_selection_update` appends for canonical color `c`
and mask `m`. -/
def update_effects (c : Color) (m : Nat) : List (Effect Color) :=
  (if m &&& UPDATE_NOTEBOOK ≠ 0 then push_effects Peer.notebook c else []) ++
  (if m &&& UPDATE_SCALES ≠ 0 then push_effects Peer.scales c else []) ++
  (if m &&& UPDATE_ENTRY ≠ 0 then push_effects Peer.entry c else []) ++
  (if m &&& UPDATE_COLOR ≠ 0 then push_effects Peer.new_color c else [])

/-- Whether an effect is a `color-changed` emission. -/
def is_color_changed : Effect Color → Bool
  | Effect.color_changed => true
  | _ => false

/-- Whether an effect pushes a color into peer `p`. -/
def is_push (p : Peer) : Effect Color → Bool
  | Effect.set_color q _ => decide (q = p)
  | _ => false

/-- Whether an effect is a call that reconfigures peer `p` (alpha visibility
of a selector, type of a swatch). -/
def is_reconfigure (p : Peer) : Effect Color → Bool
  | Effect.set_show_alpha q _ => decide (q = p)
  | Effect.set_type q _ => decide (q = p)
  | _ => false

/-- Number of `color-changed` emissions in a list of effects. -/
def notifications (l : List (Effect Color)) : Nat :=
  l.countP is_color_changed

/-- Number of color pushes into peer `p` in a list of effects. -/
def pushes (p : Peer) (l : List (Effect Color)) : Nat :=
  l.countP (is_push p)

/-- Number of reconfiguration calls on peer `p` in a list of effects. -/
def reconfigurations (p : Peer) (l : List (Effect Color)) : Nat :=
  l.countP (is_reconfigure p)

/-- A sample perceptual comparison on gray levels `0, 1, 2, ...`: two levels
are identical when they differ by at most one.  Like any comparison by a
distance threshold it is reflexive and symmetric but not transitive. -/
def near (a b : Nat) : Bool :=
  decide (a ≤ b + 1 ∧ b ≤ a + 1)

/-- The truth value of a C `gboolean`. -/
def truth (b : Int) : Bool :=
  decide (b ≠ 0)

/-! ## Synchronisation -/

/-- Color `b` is reached from color `a` by zero or more successive
replacements, each new color perceptually identical to the one it replaces
(`identical new old`, the argument order of the source). -/
def identical_chain (identical : Color → Color → Bool) (a b : Color) : Prop :=
  Relation.ReflTransGen (fun old new => identical new old = true) a b

/-- The notebook, the scales and the hex entry show the canonical color, and
the new-color swatch shows a color from which the canonical color is reached
by perceptually identical replacements. -/
def in_sync (identical : Color → Color → Bool) (s : GimpColorSelection Color) : Prop :=
  s.notebook.color = s.color ∧ s.scales.color = s.color ∧ s.entry.color = s.color ∧
  identical_chain identical s.new_color.color s.color

/-- No handler of the controller is blocked. -/
def handlers_enabled (s : GimpColorSelection Color) : Prop :=
  s.notebook_blocked = 0 ∧ s.scales_blocked = 0 ∧ s.entry_blocked = 0 ∧
  s.new_color_blocked = 0

/-! ## Trace discipline -/

/-- The handler discipline of peer `p` over a trace, `n` being the number of
blocks of `p`'s handler opened and not yet closed within the trace: every push
into `p` and every unblock of `p` happens while a block is open, no edited
report of `p` reaches its handler, and at the end no block is left open. -/
def disciplined (p : Peer) : Nat → List (Effect Color) → Bool
  | n, [] => n == 0
  | n, Effect.handlers_block q :: l =>
    if q = p then disciplined p (n + 1) l else disciplined p n l
  | n, Effect.handlers_unblock q :: l =>
    if q = p then decide (0 < n) && disciplined p (n - 1) l else disciplined p n l
  | n, Effect.set_color q _ :: l =>
    if q = p then decide (0 < n) && disciplined p n l else disciplined p n l
  | n, Effect.echo q :: l => if q = p then false else disciplined p n l
  | n, _ :: l => disciplined p n l

/-- An effect that belongs to refreshing peers with color `c`: a handler
block, a handler unblock, or a push of exactly `c`. -/
def refresh_of (c : Color) : Effect Color → Prop
  | Effect.handlers_block _ => True
  | Effect.handlers_unblock _ => True
  | Effect.set_color _ d => d = c
  | _ => False

/-! ## The update routine -/

/-- The routine `gimp_color_selection_update` in closed form: each selected
peer receives the canonical color, the log grows by the guarded pushes, and
nothing else changes (each block count is restored). -/
theorem update_eq (s : GimpColorSelection Color) (m : Nat) :
    gimp_color_selection_update s m =
      { s with
        notebook := if m &&& UPDATE_NOTEBOOK ≠ 0 then { s.notebook with color := s.color }
          else s.notebook
        scales := if m &&& UPDATE_SCALES ≠ 0 then { s.scales with color := s.color }
          else s.scales
        entry := if m &&& UPDATE_ENTRY ≠ 0 then { s.entry with color := s.color } else s.entry
        new_color := if m &&& UPDATE_COLOR ≠ 0 then { s.new_color with color := s.color }
          else s.new_color
        log := s.log ++ update_effects s.color m } := by
  unfold gimp_color_selection_update update_effects
  split_ifs <;>
  simp [peer_set_color, g_signal_handlers_block_by_func, g_signal_handlers_unblock_by_func,
    record, blocked, push_effects]

/-- The effects appended to a log are read back by `emitted`. -/
theorem emitted_of_log (s s1 : GimpColorSelection Color) (l : List (Effect Color))
    (h : s1.log = s.log ++ l) : emitted s s1 = l := by
  simp [emitted, h]

/-- The function `gimp_color_selection_set_color` in closed form. -/
theorem set_color_eq (identical : Color → Color → Bool) (s : GimpColorSelection Color)
    (c : Color) :
    gimp_color_selection_set_color identical s (some c) =
      { s with
        color := c
        notebook := { s.notebook with color := c }
        scales := { s.scales with color := c }
        entry := { s.entry with color := c }
        new_color := if identical c s.color then s.new_color else { s.new_color with color := c }
        log := s.log ++ ([Effect.replace_color c] ++ push_effects Peer.notebook c ++
          push_effects Peer.scales c ++ push_effects Peer.entry c ++
          (if identical c s.color then [] else push_effects Peer.new_color c) ++
          [Effect.color_changed]) } := by
  have m1 : ∀ c : Color, update_effects c UPDATE_ALL = push_effects Peer.notebook c ++
      push_effects Peer.scales c ++ push_effects Peer.entry c ++
      push_effects Peer.new_color c := fun _ => rfl
  have m2 : ∀ c : Color, update_effects c (UPDATE_ALL &&& bit_not UPDATE_COLOR) =
      push_effects Peer.notebook c ++ push_effects Peer.scales c ++
      push_effects Peer.entry c ++ [] := fun _ => rfl
  have a1 : (UPDATE_ALL &&& UPDATE_NOTEBOOK = 0) = False := eq_false (by decide)
  have a2 : (UPDATE_ALL &&& UPDATE_SCALES = 0) = False := eq_false (by decide)
  have a3 : (UPDATE_ALL &&& UPDATE_ENTRY = 0) = False := eq_false (by decide)
  have a4 : (UPDATE_ALL &&& UPDATE_COLOR = 0) = False := eq_false (by decide)
  have b1 : (UPDATE_ALL &&& bit_not UPDATE_COLOR &&& UPDATE_NOTEBOOK = 0) = False :=
    eq_false (by decide)
  have b2 : (UPDATE_ALL &&& bit_not UPDATE_COLOR &&& UPDATE_SCALES = 0) = False :=
    eq_false (by decide)
  have b3 : (UPDATE_ALL &&& bit_not UPDATE_COLOR &&& UPDATE_ENTRY = 0) = False :=
    eq_false (by decide)
  have b4 : (UPDATE_ALL &&& bit_not UPDATE_COLOR &&& UPDATE_COLOR = 0) = True :=
    eq_true (by decide)
  cases h : identical c s.color
  · simp only [gimp_color_selection_set_color, gimp_color_selection_color_changed, update_eq,
      record, h, m1, a1, a2, a3, a4, ne_eq, not_false_eq_true, if_true, if_false,
      List.append_assoc, Bool.false_eq_true]
  · simp only [gimp_color_selection_set_color, gimp_color_selection_color_changed, update_eq,
      record, h, m2, b1, b2, b3, b4, ne_eq, not_false_eq_true, not_true_eq_false, if_true,
      if_false, List.append_assoc]

/-! ## Setting, reading and resetting the color -/

/-- C1: for every state and valid color `c`, `gimp_color_selection_set_color`
replaces the canonical color with `c`; its effects are, in order, the
replacement, a guarded push of `c` into the notebook, the scales and the hex
entry, a guarded push into the new-color swatch exactly when `c` is not
perceptually identical to the previous canonical color, and one
`color-changed` emission; so each of the three views is pushed once, the
swatch is pushed iff the color is not identical to the old one, and exactly
one notification is emitted. -/
theorem set_color_contract (identical : Color → Color → Bool) (s : GimpColorSelection Color)
    (c : Color) :
    (gimp_color_selection_set_color identical s (some c)).color = c ∧
    emitted s (gimp_color_selection_set_color identical s (some c)) =
      [Effect.replace_color c,
       Effect.handlers_block Peer.notebook, Effect.set_color Peer.notebook c,
       Effect.handlers_unblock Peer.notebook,
       Effect.handlers_block Peer.scales, Effect.set_color Peer.scales c,
       Effect.handlers_unblock Peer.scales,
       Effect.handlers_block Peer.entry, Effect.set_color Peer.entry c,
       Effect.handlers_unblock Peer.entry] ++
      (if identical c s.color then []
       else [Effect.handlers_block Peer.new_color, Effect.set_color Peer.new_color c,
             Effect.handlers_unblock Peer.new_color]) ++
      [Effect.color_changed] ∧
    (gimp_color_selection_set_color identical s (some c)).notebook.color = c ∧
    (gimp_color_selection_set_color identical s (some c)).scales.color = c ∧
    (gimp_color_selection_set_color identical s (some c)).entry.color = c ∧
    (gimp_color_selection_set_color identical s (some c)).new_color.color =
      (if identical c s.color then s.new_color.color else c) ∧
    pushes Peer.notebook (emitted s (gimp_color_selection_set_color identical s (some c))) = 1 ∧
    pushes Peer.scales (emitted s (gimp_color_selection_set_color identical s (some c))) = 1 ∧
    pushes Peer.entry (emitted s (gimp_color_selection_set_color identical s (some c))) = 1 ∧
    (Effect.set_color Peer.new_color c ∈
        emitted s (gimp_color_selection_set_color identical s (some c)) ↔
      identical c s.color = false) ∧
    notifications (emitted s (gimp_color_selection_set_color identical s (some c))) = 1 := by
  rw [emitted_of_log s _ _ (by rw [set_color_eq])]
  rw [set_color_eq]
  cases h : identical c s.color <;>
  simp [push_effects, pushes, notifications, is_push, is_color_changed, List.countP_cons]

/-- C2: round trip; after `gimp_color_selection_set_color` with a valid color
`c`, `gimp_color_selection_get_color` returns `c` itself (a duplicate of the
stored duplicate), which is perceptually identical to `c` as soon as the
comparison holds between `c` and itself. -/
theorem set_get_round_trip (identical : Color → Color → Bool) (s : GimpColorSelection Color)
    (c : Color) (hrefl : identical c c = true) :
    gimp_color_selection_get_color (gimp_color_selection_set_color identical s (some c)) = c ∧
    identical
      (gimp_color_selection_get_color (gimp_color_selection_set_color identical s (some c)))
      c = true := by
  have h : gimp_color_selection_get_color
      (gimp_color_selection_set_color identical s (some c)) = c := by
    rw [set_color_eq]; rfl
  rw [h]
  exact ⟨rfl, hrefl⟩

/-- Witness of C2: from the initial state over gray levels, setting level 3
and reading back. -/
theorem set_get_round_trip_witness :
    near 3 3 = true ∧
    gimp_color_selection_get_color
      (gimp_color_selection_set_color near (gimp_color_selection_init 0) (some 3)) = 3 ∧
    near (gimp_color_selection_get_color
      (gimp_color_selection_set_color near (gimp_color_selection_init 0) (some 3))) 3 = true :=
  ⟨by decide, set_get_round_trip near (gimp_color_selection_init 0) 3 (by decide)⟩

/-- C3: reset correctness; `gimp_color_selection_reset` is
`gimp_color_selection_set_color` applied to the old-color swatch's value, and
after set_old_color(x); set_color(y); reset() the getter returns `x` itself,
which is perceptually identical to `x` as soon as the comparison holds between
`x` and itself. -/
theorem reset_correctness (identical : Color → Color → Bool) (s : GimpColorSelection Color)
    (x y : Color) (hrefl : identical x x = true) :
    (∀ t : GimpColorSelection Color, gimp_color_selection_reset identical t =
      gimp_color_selection_set_color identical t
        (some (gimp_color_selection_get_old_color t))) ∧
    gimp_color_selection_get_color
      (gimp_color_selection_reset identical
        (gimp_color_selection_set_color identical
          (gimp_color_selection_set_old_color s (some x)) (some y))) = x ∧
    identical
      (gimp_color_selection_get_color
        (gimp_color_selection_reset identical
          (gimp_color_selection_set_color identical
            (gimp_color_selection_set_old_color s (some x)) (some y))))
      x = true := by
  have h : gimp_color_selection_get_color
      (gimp_color_selection_reset identical
        (gimp_color_selection_set_color identical
          (gimp_color_selection_set_old_color s (some x)) (some y))) = x := by
    simp only [gimp_color_selection_reset, set_color_eq, gimp_color_selection_get_color,
      gimp_color_selection_set_old_color, peer_set_color, record]
    simp
  rw [h]
  exact ⟨fun _ => rfl, rfl, hrefl⟩

/-- Witness of C3: from the initial state over gray levels, old color 7, then
color 2, then reset. -/
theorem reset_correctness_witness :
    near 7 7 = true ∧
    gimp_color_selection_get_color
      (gimp_color_selection_reset near
        (gimp_color_selection_set_color near
          (gimp_color_selection_set_old_color (gimp_color_selection_init 0) (some 7))
          (some 2))) = 7 :=
  ⟨by decide, (reset_correctness near (gimp_color_selection_init 0) 7 2 (by decide)).2.1⟩

/-- C4 as stated fails: in the initial state (canonical color black, gray
level 0) the first `gimp_color_selection_set_color` with black itself
refreshes the new-color swatch zero times, not once. -/
theorem set_color_twice_counterexample :
    pushes Peer.new_color
      (emitted (gimp_color_selection_init 0)
        (gimp_color_selection_set_color near (gimp_color_selection_init 0) (some 0))) = 0 ∧
    pushes Peer.new_color
      (emitted (gimp_color_selection_init 0)
        (gimp_color_selection_set_color near (gimp_color_selection_init 0) (some 0))) ≠ 1 := by
  decide

/-- C4 amended: when the comparison holds between `c` and itself, the first
`gimp_color_selection_set_color` with `c` refreshes the new-color swatch exactly
once if `c` is not perceptually identical to the current canonical color and
not at all if it is, and the second call refreshes it zero times. -/
theorem set_color_twice (identical : Color → Color → Bool) (s : GimpColorSelection Color)
    (c : Color) (hrefl : identical c c = true) :
    pushes Peer.new_color
      (emitted s (gimp_color_selection_set_color identical s (some c))) =
      (if identical c s.color then 0 else 1) ∧
    pushes Peer.new_color
      (emitted (gimp_color_selection_set_color identical s (some c))
        (gimp_color_selection_set_color identical
          (gimp_color_selection_set_color identical s (some c)) (some c))) = 0 := by
  constructor
  · rw [emitted_of_log s _ _ (by rw [set_color_eq])]
    cases h : identical c s.color <;>
    simp [push_effects, pushes, is_push, List.countP_cons]
  · rw [emitted_of_log _ _ _ (by rw [set_color_eq])]
    have hc : (gimp_color_selection_set_color identical s (some c)).color = c := by
      rw [set_color_eq]
    rw [hc, hrefl]
    simp [push_effects, pushes, is_push, List.countP_cons]

/-- Witness of C4 amended: from the initial state over gray levels (canonical
level 0), setting level 5 twice refreshes the swatch once, then not at all. -/
theorem set_color_twice_witness :
    near 5 5 = true ∧
    pushes Peer.new_color
      (emitted (gimp_color_selection_init 0)
        (gimp_color_selection_set_color near (gimp_color_selection_init 0) (some 5))) = 1 ∧
    pushes Peer.new_color
      (emitted (gimp_color_selection_set_color near (gimp_color_selection_init 0) (some 5))
        (gimp_color_selection_set_color near
          (gimp_color_selection_set_color near (gimp_color_selection_init 0) (some 5))
          (some 5))) = 0 :=
  ⟨by decide, set_color_twice near (gimp_color_selection_init 0) 5 (by decide)⟩

/-! ## Alpha, format, simulation and config -/

/-- For a canonical `gboolean` argument (`TRUE` or `FALSE`) and a canonical
stored flag, `gimp_color_selection_set_show_alpha` is the identity when the
two agree, and otherwise stores the argument and reconfigures the notebook,
the scales, the new-color swatch and the old-color swatch once each. -/
theorem set_show_alpha_canonical (s : GimpColorSelection Color) (show_alpha : Int)
    (ha : show_alpha = TRUE ∨ show_alpha = FALSE)
    (hs : s.show_alpha = TRUE ∨ s.show_alpha = FALSE) :
    (truth show_alpha = truth s.show_alpha →
      gimp_color_selection_set_show_alpha s show_alpha = s) ∧
    (truth show_alpha ≠ truth s.show_alpha →
      (gimp_color_selection_set_show_alpha s show_alpha).show_alpha = show_alpha ∧
      emitted s (gimp_color_selection_set_show_alpha s show_alpha) =
        [Effect.set_show_alpha Peer.notebook show_alpha,
         Effect.set_show_alpha Peer.scales show_alpha,
         Effect.set_type Peer.new_color
           (if show_alpha ≠ 0 then GimpColorAreaType.SMALL_CHECKS else GimpColorAreaType.FLAT),
         Effect.set_type Peer.old_color
           (if show_alpha ≠ 0 then GimpColorAreaType.SMALL_CHECKS
            else GimpColorAreaType.FLAT)]) := by
  rcases ha with ha | ha <;> rcases hs with hs | hs <;>
  simp [gimp_color_selection_set_show_alpha, truth, ha, hs, TRUE, FALSE, record, emitted]

/-- C5 fails on the code at a non-canonical true argument: in the initial
state the stored flag is `TRUE` (1); the argument 2 has the same truth value,
yet `gimp_color_selection_set_show_alpha` compares the raw integers, enters the
branch and reconfigures each of the four peers once (the stored flag stays
`TRUE`). -/
theorem set_show_alpha_two_reconfigures :
    truth 2 = truth (gimp_color_selection_init (0 : Nat)).show_alpha ∧
    (gimp_color_selection_set_show_alpha (gimp_color_selection_init (0 : Nat)) 2).show_alpha =
      (gimp_color_selection_init (0 : Nat)).show_alpha ∧
    emitted (gimp_color_selection_init (0 : Nat))
      (gimp_color_selection_set_show_alpha (gimp_color_selection_init (0 : Nat)) 2) =
      [Effect.set_show_alpha Peer.notebook 1, Effect.set_show_alpha Peer.scales 1,
       Effect.set_type Peer.new_color GimpColorAreaType.SMALL_CHECKS,
       Effect.set_type Peer.old_color GimpColorAreaType.SMALL_CHECKS] ∧
    reconfigurations Peer.notebook (emitted (gimp_color_selection_init (0 : Nat))
      (gimp_color_selection_set_show_alpha (gimp_color_selection_init (0 : Nat)) 2)) = 1 ∧
    reconfigurations Peer.scales (emitted (gimp_color_selection_init (0 : Nat))
      (gimp_color_selection_set_show_alpha (gimp_color_selection_init (0 : Nat)) 2)) = 1 ∧
    reconfigurations Peer.new_color (emitted (gimp_color_selection_init (0 : Nat))
      (gimp_color_selection_set_show_alpha (gimp_color_selection_init (0 : Nat)) 2)) = 1 ∧
    reconfigurations Peer.old_color (emitted (gimp_color_selection_init (0 : Nat))
      (gimp_color_selection_set_show_alpha (gimp_color_selection_init (0 : Nat)) 2)) = 1 := by
  decide

/-- C6: for every state and format `f`, `gimp_color_selection_set_format`
forwards `f` to the notebook and then to the scales, emits exactly one
`color-changed`, and leaves the canonical color (the value of
`gimp_color_selection_get_color`) unchanged. -/
theorem set_format_contract (s : GimpColorSelection Color) (f : Babl) :
    emitted s (gimp_color_selection_set_format s f) =
      [Effect.set_format Peer.notebook f, Effect.set_format Peer.scales f,
       Effect.color_changed] ∧
    notifications (emitted s (gimp_color_selection_set_format s f)) = 1 ∧
    (gimp_color_selection_set_format s f).notebook.format = some f ∧
    (gimp_color_selection_set_format s f).scales.format = some f ∧
    gimp_color_selection_get_color (gimp_color_selection_set_format s f) =
      gimp_color_selection_get_color s := by
  simp [gimp_color_selection_set_format, record, emitted, notifications, is_color_changed,
    gimp_color_selection_get_color, List.countP_cons]

/-- C7 as stated fails: from the initial state,
`gimp_color_selection_set_simulation` makes no simulation call on the scales
peer, whose simulation setting stays unset. -/
theorem set_simulation_counterexample :
    Effect.set_simulation Peer.scales 1 0 0 ∉
      emitted (gimp_color_selection_init (0 : Nat))
        (gimp_color_selection_set_simulation (gimp_color_selection_init (0 : Nat)) 1 0 0) ∧
    (gimp_color_selection_set_simulation
      (gimp_color_selection_init (0 : Nat)) 1 0 0).scales.simulation = none := by
  decide

/-- C7 amended: for every state and every (profile, intent, bpc),
`gimp_color_selection_set_simulation` forwards the simulation configuration to
the notebook peer only, then emits one `color-changed`; the scales peer is
left as it was. -/
theorem set_simulation_contract (s : GimpColorSelection Color) (profile : GimpColorProfile)
    (intent : GimpColorRenderingIntent) (bpc : Int) :
    emitted s (gimp_color_selection_set_simulation s profile intent bpc) =
      [Effect.set_simulation Peer.notebook profile intent bpc, Effect.color_changed] ∧
    notifications (emitted s (gimp_color_selection_set_simulation s profile intent bpc)) = 1 ∧
    (gimp_color_selection_set_simulation s profile intent bpc).notebook.simulation =
      some (profile, intent, bpc) ∧
    (gimp_color_selection_set_simulation s profile intent bpc).scales = s.scales := by
  simp [gimp_color_selection_set_simulation, record, emitted, notifications, is_color_changed,
    List.countP_cons]

/-- C8: for every state and every config (`none` is the null config),
`gimp_color_selection_set_config` makes exactly four calls, forwarding the
config to the notebook, the scales, the old-color swatch and the new-color
swatch; it emits no `color-changed` and leaves the canonical color, the active
channel and the show-alpha flag unchanged. -/
theorem set_config_contract (s : GimpColorSelection Color) (config : Option GimpColorConfig) :
    emitted s (gimp_color_selection_set_config s config) =
      [Effect.set_config Peer.notebook config, Effect.set_config Peer.scales config,
       Effect.set_config Peer.old_color config, Effect.set_config Peer.new_color config] ∧
    notifications (emitted s (gimp_color_selection_set_config s config)) = 0 ∧
    (gimp_color_selection_set_config s config).notebook.config = config ∧
    (gimp_color_selection_set_config s config).scales.config = config ∧
    (gimp_color_selection_set_config s config).old_color.config = config ∧
    (gimp_color_selection_set_config s config).new_color.config = config ∧
    (gimp_color_selection_set_config s config).color = s.color ∧
    (gimp_color_selection_set_config s config).channel = s.channel ∧
    (gimp_color_selection_set_config s config).show_alpha = s.show_alpha := by
  simp [gimp_color_selection_set_config, record, emitted, notifications, is_color_changed,
    List.countP_cons]

/-! ## Channel propagation -/

/-- C9: for every state and channel `ch`, the handler
`gimp_color_selection_channel_changed` sets the controller's active channel
and the notebook's channel to `ch` with the single effect of a `set_channel`
call on the notebook: the canonical color and every peer's color are
unchanged, no color is pushed and no `color-changed` is emitted; and after the
scales peer's channel-changed event the scales' and the notebook's channel
agree. -/
theorem channel_changed_contract (s : GimpColorSelection Color)
    (ch : GimpColorSelectorChannel) :
    (gimp_color_selection_channel_changed s ch).channel = ch ∧
    (gimp_color_selection_channel_changed s ch).notebook.channel = ch ∧
    (gimp_color_selection_channel_changed s ch).color = s.color ∧
    emitted s (gimp_color_selection_channel_changed s ch) =
      [Effect.set_channel Peer.notebook ch] ∧
    (∀ p : Peer, pushes p (emitted s (gimp_color_selection_channel_changed s ch)) = 0) ∧
    notifications (emitted s (gimp_color_selection_channel_changed s ch)) = 0 ∧
    (gimp_color_selection_channel_changed s ch).notebook.color = s.notebook.color ∧
    (gimp_color_selection_channel_changed s ch).scales = s.scales ∧
    (gimp_color_selection_channel_changed s ch).entry = s.entry ∧
    (gimp_color_selection_channel_changed s ch).new_color = s.new_color ∧
    (gimp_color_selection_channel_changed s ch).old_color = s.old_color ∧
    (channel_changed s ch).scales.channel = ch ∧
    (channel_changed s ch).notebook.channel = (channel_changed s ch).scales.channel ∧
    (channel_changed s ch).channel = ch ∧
    (channel_changed s ch).color = s.color := by
  simp [gimp_color_selection_channel_changed, channel_changed, record, emitted, notifications,
    pushes, is_push, is_color_changed, List.countP_cons]

/-! ## The peer-edit handlers in closed form -/

/-- The routine `gimp_color_selection_update` for a mask whose four bits are
known. -/
theorem update_bits (s : GimpColorSelection Color) (m : Nat) (b0 b1 b2 b3 : Bool)
    (h0 : decide (m &&& UPDATE_NOTEBOOK ≠ 0) = b0) (h1 : decide (m &&& UPDATE_SCALES ≠ 0) = b1)
    (h2 : decide (m &&& UPDATE_ENTRY ≠ 0) = b2) (h3 : decide (m &&& UPDATE_COLOR ≠ 0) = b3) :
    gimp_color_selection_update s m =
      { s with
        notebook := if b0 then { s.notebook with color := s.color } else s.notebook
        scales := if b1 then { s.scales with color := s.color } else s.scales
        entry := if b2 then { s.entry with color := s.color } else s.entry
        new_color := if b3 then { s.new_color with color := s.color } else s.new_color
        log := s.log ++ ((if b0 then push_effects Peer.notebook s.color else []) ++
          (if b1 then push_effects Peer.scales s.color else []) ++
          (if b2 then push_effects Peer.entry s.color else []) ++
          (if b3 then push_effects Peer.new_color s.color else [])) } := by
  subst h0 h1 h2 h3
  rw [update_eq]
  simp [update_effects]

/-- The handler `gimp_color_selection_notebook_changed` in closed form. -/
theorem notebook_changed_eq (identical : Color → Color → Bool) (s : GimpColorSelection Color)
    (c : Color) :
    gimp_color_selection_notebook_changed identical s c =
      { s with
        color := c
        scales := { s.scales with color := c }
        entry := { s.entry with color := c }
        new_color := if identical c s.color then s.new_color else { s.new_color with color := c }
        log := s.log ++ ([Effect.replace_color c] ++ push_effects Peer.scales c ++
          push_effects Peer.entry c ++
          (if identical c s.color then [] else push_effects Peer.new_color c) ++
          [Effect.color_changed]) } := by
  cases h : identical c s.color
  · simp only [gimp_color_selection_notebook_changed, h, Bool.not_false, if_true,
      update_bits _ (UPDATE_SCALES ||| UPDATE_ENTRY ||| UPDATE_COLOR) false true true true
        rfl rfl rfl rfl]
    simp [gimp_color_selection_color_changed, record]
  · simp only [gimp_color_selection_notebook_changed, h, Bool.not_true, Bool.false_eq_true, if_false,
      update_bits _ (UPDATE_SCALES ||| UPDATE_ENTRY) false true true false rfl rfl rfl rfl]
    simp [gimp_color_selection_color_changed, record]

/-- The handler `gimp_color_selection_scales_changed` in closed form. -/
theorem scales_changed_eq (identical : Color → Color → Bool) (s : GimpColorSelection Color)
    (c : Color) :
    gimp_color_selection_scales_changed identical s c =
      { s with
        color := c
        notebook := { s.notebook with color := c }
        entry := { s.entry with color := c }
        new_color := if identical c s.color then s.new_color else { s.new_color with color := c }
        log := s.log ++ ([Effect.replace_color c] ++ push_effects Peer.notebook c ++
          push_effects Peer.entry c ++
          (if identical c s.color then [] else push_effects Peer.new_color c) ++
          [Effect.color_changed]) } := by
  cases h : identical c s.color
  · simp only [gimp_color_selection_scales_changed, h, Bool.not_false, if_true,
      update_bits _ (UPDATE_ENTRY ||| UPDATE_NOTEBOOK ||| UPDATE_COLOR) true false true true
        rfl rfl rfl rfl]
    simp [gimp_color_selection_color_changed, record]
  · simp only [gimp_color_selection_scales_changed, h, Bool.not_true, Bool.false_eq_true, if_false,
      update_bits _ (UPDATE_ENTRY ||| UPDATE_NOTEBOOK) true false true false rfl rfl rfl rfl]
    simp [gimp_color_selection_color_changed, record]

/-- The handler `gimp_color_selection_entry_changed` in closed form. -/
theorem entry_changed_eq (s : GimpColorSelection Color) :
    gimp_color_selection_entry_changed s =
      { s with
        color := s.entry.color
        notebook := { s.notebook with color := s.entry.color }
        scales := { s.scales with color := s.entry.color }
        new_color := { s.new_color with color := s.entry.color }
        log := s.log ++ ([Effect.replace_color s.entry.color] ++
          push_effects Peer.notebook s.entry.color ++ push_effects Peer.scales s.entry.color ++
          push_effects Peer.new_color s.entry.color ++ [Effect.color_changed]) } := by
  simp only [gimp_color_selection_entry_changed,
    update_bits _ (UPDATE_NOTEBOOK ||| UPDATE_SCALES ||| UPDATE_COLOR) true true false true
      rfl rfl rfl rfl]
  simp [gimp_color_selection_color_changed, record]

/-- The handler `gimp_color_selection_new_color_changed` in closed form. -/
theorem new_color_changed_eq (s : GimpColorSelection Color) :
    gimp_color_selection_new_color_changed s =
      { s with
        color := s.new_color.color
        notebook := { s.notebook with color := s.new_color.color }
        scales := { s.scales with color := s.new_color.color }
        entry := { s.entry with color := s.new_color.color }
        log := s.log ++ ([Effect.replace_color s.new_color.color] ++
          push_effects Peer.notebook s.new_color.color ++
          push_effects Peer.scales s.new_color.color ++
          push_effects Peer.entry s.new_color.color ++ [Effect.color_changed]) } := by
  simp only [gimp_color_selection_new_color_changed,
    update_bits _ (UPDATE_NOTEBOOK ||| UPDATE_SCALES ||| UPDATE_ENTRY) true true true false
      rfl rfl rfl rfl]
  simp [gimp_color_selection_color_changed, record]

/-! ## The synchronisation invariant -/

/-- The initial state is in sync and has every handler enabled. -/
theorem init_in_sync (identical : Color → Color → Bool) (black : Color) :
    in_sync identical (gimp_color_selection_init black) ∧
    handlers_enabled (gimp_color_selection_init black) :=
  ⟨⟨rfl, rfl, rfl, Relation.ReflTransGen.refl⟩, rfl, rfl, rfl, rfl⟩

/-- The function `gimp_color_selection_set_color` keeps the state in sync and
the handlers enabled. -/
theorem set_color_in_sync (identical : Color → Color → Bool) (s : GimpColorSelection Color)
    (c : Color) (h : in_sync identical s ∧ handlers_enabled s) :
    in_sync identical (gimp_color_selection_set_color identical s (some c)) ∧
    handlers_enabled (gimp_color_selection_set_color identical s (some c)) := by
  obtain ⟨⟨_, _, _, hc⟩, he⟩ := h
  rw [set_color_eq]
  refine ⟨⟨rfl, rfl, rfl, ?_⟩, he⟩
  cases hi : identical c s.color
  · simpa [identical_chain] using Relation.ReflTransGen.refl
  · simpa [identical_chain] using Relation.ReflTransGen.tail hc hi

/-- Every event keeps the state in sync and the handlers enabled. -/
theorem step_in_sync (identical : Color → Color → Bool) (s : GimpColorSelection Color)
    (e : Event Color) (h : in_sync identical s ∧ handlers_enabled s) :
    in_sync identical (step identical s e) ∧ handlers_enabled (step identical s e) := by
  have h0 := h
  obtain ⟨⟨h1, h2, h3, hc⟩, e1, e2, e3, e4⟩ := h0
  cases e with
  | set_color color =>
    cases color with
    | none => exact h
    | some c => exact set_color_in_sync identical s c h
  | reset => exact set_color_in_sync identical s _ h
  | set_old_color color =>
    cases color with
    | none => exact h
    | some c =>
      exact ⟨⟨h1, h2, h3, hc⟩, e1, e2, e3, e4⟩
  | set_show_alpha show_alpha =>
    by_cases hb : show_alpha ≠ s.show_alpha
    · simp only [step, gimp_color_selection_set_show_alpha, if_pos hb]
      exact ⟨⟨h1, h2, h3, hc⟩, e1, e2, e3, e4⟩
    · simp only [step, gimp_color_selection_set_show_alpha, if_neg hb]
      exact h
  | set_format format => exact ⟨⟨h1, h2, h3, hc⟩, e1, e2, e3, e4⟩
  | set_simulation profile intent bpc => exact ⟨⟨h1, h2, h3, hc⟩, e1, e2, e3, e4⟩
  | set_config config => exact ⟨⟨h1, h2, h3, hc⟩, e1, e2, e3, e4⟩
  | notebook_edited c =>
    simp only [step, notebook_edited, e1, if_true, notebook_changed_eq]
    refine ⟨⟨rfl, rfl, rfl, ?_⟩, rfl, e2, e3, e4⟩
    cases hi : identical c s.color
    · simpa [identical_chain] using Relation.ReflTransGen.refl
    · simpa [identical_chain, hi] using Relation.ReflTransGen.tail hc hi
  | scales_edited c =>
    simp only [step, scales_edited, e2, if_true, scales_changed_eq]
    refine ⟨⟨rfl, rfl, rfl, ?_⟩, e1, rfl, e3, e4⟩
    cases hi : identical c s.color
    · simpa [identical_chain] using Relation.ReflTransGen.refl
    · simpa [identical_chain, hi] using Relation.ReflTransGen.tail hc hi
  | entry_committed c =>
    simp only [step, entry_committed, e3, if_true, entry_changed_eq]
    exact ⟨⟨rfl, rfl, rfl, Relation.ReflTransGen.refl⟩, e1, e2, rfl, e4⟩
  | new_color_edited c =>
    simp only [step, new_color_edited, e4, if_true, new_color_changed_eq]
    exact ⟨⟨rfl, rfl, rfl, Relation.ReflTransGen.refl⟩, e1, e2, e3, rfl⟩
  | color_picked rgb =>
    cases rgb with
    | none => exact h
    | some c => exact set_color_in_sync identical s c h
  | channel_changed channel => exact ⟨⟨h1, h2, h3, hc⟩, e1, e2, e3, e4⟩
  | switch_page b => exact ⟨⟨h1, h2, h3, hc⟩, e1, e2, e3, e4⟩

/-- A run of events from a state that is in sync, with handlers enabled, ends
in such a state. -/
theorem run_in_sync (identical : Color → Color → Bool) (events : List (Event Color)) :
    ∀ s : GimpColorSelection Color, in_sync identical s ∧ handlers_enabled s →
      in_sync identical (run identical s events) ∧
      handlers_enabled (run identical s events) := by
  induction events with
  | nil => intro s h; exact h
  | cons e es ih => intro s h; exact ih _ (step_in_sync identical s e h)

/-- A chain of perceptually identical replacements collapses to one
comparison when the comparison is reflexive and transitive. -/
theorem identical_of_chain (identical : Color → Color → Bool)
    (hrefl : ∀ a, identical a a = true)
    (htrans : ∀ a b c, identical a b = true → identical b c = true → identical a c = true)
    (a b : Color) (h : identical_chain identical a b) : identical b a = true := by
  induction h with
  | refl => exact hrefl a
  | tail _ hstep ih => exact htrans _ _ _ hstep ih

/-- C10 as stated fails: over gray levels compared by `near`, from the initial
state (black is level 0) `set_color 1` leaves the new-color swatch at 0 while
the canonical color is 1, because 1 is perceptually identical to 0 and the
swatch push is skipped; a further `set_color 2` is skipped the same way (2 is
identical to 1), leaving the swatch at 0 with canonical color 2, which is
neither equal nor perceptually identical to what the swatch shows. -/
theorem sync_counterexample :
    (run near (gimp_color_selection_init 0) [Event.set_color (some 1)]).new_color.color = 0 ∧
    (run near (gimp_color_selection_init 0) [Event.set_color (some 1)]).color = 1 ∧
    (run near (gimp_color_selection_init 0)
      [Event.set_color (some 1), Event.set_color (some 2)]).new_color.color = 0 ∧
    (run near (gimp_color_selection_init 0)
      [Event.set_color (some 1), Event.set_color (some 2)]).color = 2 ∧
    (run near (gimp_color_selection_init 0)
      [Event.set_color (some 1), Event.set_color (some 2)]).new_color.color ≠
      (run near (gimp_color_selection_init 0)
        [Event.set_color (some 1), Event.set_color (some 2)]).color ∧
    near 2 0 = false ∧ near 0 2 = false := by
  decide

/-- C10 amended: in every state reached from construction by any sequence of
public operations and peer events, the notebook, the scales and the hex entry
each show exactly the canonical color, and the new-color swatch shows a color
from which the canonical color is reached by a chain of perceptually identical
replacements (the skipped swatch pushes); so the swatch is perceptually
identical to the canonical color whenever the comparison is reflexive and
transitive.  No handler is left blocked. -/
theorem sync_invariant (identical : Color → Color → Bool) (black : Color)
    (events : List (Event Color)) :
    (run identical (gimp_color_selection_init black) events).notebook.color =
      (run identical (gimp_color_selection_init black) events).color ∧
    (run identical (gimp_color_selection_init black) events).scales.color =
      (run identical (gimp_color_selection_init black) events).color ∧
    (run identical (gimp_color_selection_init black) events).entry.color =
      (run identical (gimp_color_selection_init black) events).color ∧
    identical_chain identical
      (run identical (gimp_color_selection_init black) events).new_color.color
      (run identical (gimp_color_selection_init black) events).color ∧
    ((∀ a, identical a a = true) →
      (∀ a b c, identical a b = true → identical b c = true → identical a c = true) →
      identical (run identical (gimp_color_selection_init black) events).color
        (run identical (gimp_color_selection_init black) events).new_color.color = true) ∧
    handlers_enabled (run identical (gimp_color_selection_init black) events) := by
  obtain ⟨⟨h1, h2, h3, hc⟩, he⟩ :=
    run_in_sync identical events _ (init_in_sync identical black)
  exact ⟨h1, h2, h3, hc, fun hr ht => identical_of_chain identical hr ht _ _ hc, he⟩

/-! ## The old color -/

/-- C11: `gimp_color_selection_set_old_color` with a valid color `c` changes
only the old-color swatch's color (its one effect is the call setting it),
after which `gimp_color_selection_get_old_color` returns `c`; the canonical
color is unchanged and no `color-changed` is emitted.  Neither
`gimp_color_selection_set_color` nor any of the four peer-edit handlers (nor
the peer events that run them) changes the old-color swatch. -/
theorem old_color_independent (identical : Color → Color → Bool)
    (s : GimpColorSelection Color) (c : Color) :
    gimp_color_selection_set_old_color s (some c) =
      { s with
        old_color := { s.old_color with color := c }
        log := s.log ++ [Effect.set_color Peer.old_color c] } ∧
    gimp_color_selection_get_old_color (gimp_color_selection_set_old_color s (some c)) = c ∧
    gimp_color_selection_get_color (gimp_color_selection_set_old_color s (some c)) =
      gimp_color_selection_get_color s ∧
    notifications (emitted s (gimp_color_selection_set_old_color s (some c))) = 0 ∧
    (∀ color : Option Color,
      (gimp_color_selection_set_color identical s color).old_color = s.old_color) ∧
    (gimp_color_selection_notebook_changed identical s c).old_color = s.old_color ∧
    (gimp_color_selection_scales_changed identical s c).old_color = s.old_color ∧
    (gimp_color_selection_entry_changed s).old_color = s.old_color ∧
    (gimp_color_selection_new_color_changed s).old_color = s.old_color ∧
    (notebook_edited identical s c).old_color = s.old_color ∧
    (scales_edited identical s c).old_color = s.old_color ∧
    (entry_committed s c).old_color = s.old_color ∧
    (new_color_edited s c).old_color = s.old_color := by
  have h0 : gimp_color_selection_set_old_color s (some c) =
      { s with
        old_color := { s.old_color with color := c }
        log := s.log ++ [Effect.set_color Peer.old_color c] } := by
    simp [gimp_color_selection_set_old_color, peer_set_color, record]
  refine ⟨h0, ?_, ?_, ?_, ?_, ?_, ?_, ?_, ?_, ?_, ?_, ?_, ?_⟩
  · rw [h0]; rfl
  · rw [h0]; rfl
  · rw [emitted_of_log s _ _ (by rw [h0])]; rfl
  · intro color
    cases color with
    | none => rfl
    | some d => rw [set_color_eq]
  · rw [notebook_changed_eq]
  · rw [scales_changed_eq]
  · rw [entry_changed_eq]
  · rw [new_color_changed_eq]
  · by_cases hb : s.notebook_blocked = 0
    · simp [notebook_edited, hb, notebook_changed_eq]
    · simp [notebook_edited, hb]
  · by_cases hb : s.scales_blocked = 0
    · simp [scales_edited, hb, scales_changed_eq]
    · simp [scales_edited, hb]
  · by_cases hb : s.entry_blocked = 0
    · simp [entry_committed, hb, entry_changed_eq]
    · simp [entry_committed, hb]
  · by_cases hb : s.new_color_blocked = 0
    · simp [new_color_edited, hb, new_color_changed_eq]
    · simp [new_color_edited, hb]

/-- C12: called with an invalid color argument (one failing `GEGL_IS_COLOR`,
`none` here), `gimp_color_selection_set_color` and
`gimp_color_selection_set_old_color` return at the precondition check: the
whole state (canonical color, old color, every peer, every block count) is
unchanged and nothing is appended to the effect log, so no peer is
refreshed and no `color-changed` is emitted. -/
theorem invalid_color_is_noop (identical : Color → Color → Bool)
    (s : GimpColorSelection Color) :
    gimp_color_selection_set_color identical s none = s ∧
    gimp_color_selection_set_old_color s none = s ∧
    emitted s (gimp_color_selection_set_color identical s none) = [] ∧
    emitted s (gimp_color_selection_set_old_color s none) = [] ∧
    (∀ p : Peer, pushes p (emitted s (gimp_color_selection_set_color identical s none)) = 0) ∧
    (∀ p : Peer, pushes p (emitted s (gimp_color_selection_set_old_color s none)) = 0) ∧
    notifications (emitted s (gimp_color_selection_set_color identical s none)) = 0 ∧
    notifications (emitted s (gimp_color_selection_set_old_color s none)) = 0 := by
  have h1 : gimp_color_selection_set_color identical s none = s := rfl
  have h2 : gimp_color_selection_set_old_color s none = s := rfl
  rw [h1, h2]
  simp [emitted, pushes, notifications]

/-! ## The update-and-rebroadcast table -/

/-- The effects of `gimp_color_selection_update` keep the handler discipline of
every peer, whatever the mask. -/
theorem update_effects_disciplined (c : Color) (m : Nat) (p : Peer) :
    disciplined p 0 (update_effects c m) = true := by
  unfold update_effects
  split_ifs <;> cases p <;> rfl

/-- The effects of `gimp_color_selection_update` contain no edited report that
reaches a handler. -/
theorem update_effects_no_echo (c : Color) (m : Nat) (p : Peer) :
    Effect.echo p ∉ update_effects c m := by
  unfold update_effects
  split_ifs <;> simp [push_effects]

/-- C14: for every state and every update mask, the effects of
`gimp_color_selection_update` are the guarded pushes of the selected peers, in
the order notebook, scales, hex entry, new-color swatch, each push standing
between the block and the unblock of that same peer's handler; the trace keeps
every peer's handler discipline (pushes only while blocked, every block
closed), no pushed peer's report reaches an enabled handler, and every block
count on return equals its value on entry.  The same holds for the whole of
`gimp_color_selection_set_color`, which therefore re-enters no handler. -/
theorem update_discipline (identical : Color → Color → Bool) (s : GimpColorSelection Color)
    (m : Nat) (c : Color) :
    emitted s (gimp_color_selection_update s m) =
      (if m &&& UPDATE_NOTEBOOK ≠ 0 then
        [Effect.handlers_block Peer.notebook, Effect.set_color Peer.notebook s.color,
         Effect.handlers_unblock Peer.notebook] else []) ++
      (if m &&& UPDATE_SCALES ≠ 0 then
        [Effect.handlers_block Peer.scales, Effect.set_color Peer.scales s.color,
         Effect.handlers_unblock Peer.scales] else []) ++
      (if m &&& UPDATE_ENTRY ≠ 0 then
        [Effect.handlers_block Peer.entry, Effect.set_color Peer.entry s.color,
         Effect.handlers_unblock Peer.entry] else []) ++
      (if m &&& UPDATE_COLOR ≠ 0 then
        [Effect.handlers_block Peer.new_color, Effect.set_color Peer.new_color s.color,
         Effect.handlers_unblock Peer.new_color] else []) ∧
    (∀ p : Peer, disciplined p 0 (emitted s (gimp_color_selection_update s m)) = true) ∧
    (∀ p : Peer, Effect.echo p ∉ emitted s (gimp_color_selection_update s m)) ∧
    (∀ p : Peer, blocked (gimp_color_selection_update s m) p = blocked s p) ∧
    (∀ p : Peer, disciplined p 0
      (emitted s (gimp_color_selection_set_color identical s (some c))) = true) ∧
    (∀ p : Peer, Effect.echo p ∉
      emitted s (gimp_color_selection_set_color identical s (some c))) ∧
    (∀ p : Peer,
      blocked (gimp_color_selection_set_color identical s (some c)) p = blocked s p) := by
  have hu : emitted s (gimp_color_selection_update s m) = update_effects s.color m :=
    emitted_of_log s _ _ (by rw [update_eq])
  have hs := emitted_of_log s (gimp_color_selection_set_color identical s (some c)) _
    (by rw [set_color_eq])
  refine ⟨?_, ?_, ?_, ?_, ?_, ?_, ?_⟩
  · rw [hu]; rfl
  · intro p; rw [hu]; exact update_effects_disciplined _ _ p
  · intro p; rw [hu]; exact update_effects_no_echo _ _ p
  · intro p; rw [update_eq]; cases p <;> rfl
  · intro p; rw [hs]
    cases p <;> cases h : identical c s.color <;> rfl
  · intro p; rw [hs]
    cases h : identical c s.color <;> simp [push_effects]
  · intro p; rw [set_color_eq]; cases p <;> rfl

/-! ## Ordering within one change -/

/-- Every effect of a guarded push of `c` is a refresh effect for `c`. -/
theorem refresh_of_push_effects (p : Peer) (c : Color) :
    ∀ e ∈ push_effects p c, refresh_of c e := by
  intro e he
  simp only [push_effects, List.mem_cons, List.mem_singleton, List.not_mem_nil, or_false] at he
  rcases he with rfl | rfl | rfl
  · exact True.intro
  · exact rfl
  · exact True.intro

/-- Refresh effects of two lists are refresh effects of their concatenation. -/
theorem refresh_of_append (c : Color) (a b : List (Effect Color))
    (ha : ∀ e ∈ a, refresh_of c e) (hb : ∀ e ∈ b, refresh_of c e) :
    ∀ e ∈ a ++ b, refresh_of c e := by
  intro e he
  rcases List.mem_append.mp he with h | h
  · exact ha e h
  · exact hb e h

/-- The optional swatch push consists of refresh effects. -/
theorem refresh_of_optional_push (c : Color) (b : Bool) (p : Peer) :
    ∀ e ∈ (if b then [] else push_effects p c), refresh_of c e := by
  intro e he
  cases b
  · exact refresh_of_push_effects p c e (by simpa using he)
  · simp at he

/-- C15: for `gimp_color_selection_set_color` and each of the four peer-edit
handlers, the effect trace is exactly: first the replacement of the canonical
color by the new color; then the guarded pushes of the refreshed peers, which
consist only of handler blocks, unblocks and pushes of exactly that new color
(the canonical color on return) and in which every block is closed again by
its unblock, for every peer; and last the single `color-changed` emission.
Every block count at the emission equals its value on entry. -/
theorem change_ordering (identical : Color → Color → Bool) (s : GimpColorSelection Color)
    (c : Color) :
    ((gimp_color_selection_set_color identical s (some c)).color = c ∧
      emitted s (gimp_color_selection_set_color identical s (some c)) =
        Effect.replace_color c ::
          ((push_effects Peer.notebook c ++ push_effects Peer.scales c ++
            push_effects Peer.entry c ++
            (if identical c s.color then [] else push_effects Peer.new_color c)) ++
          [Effect.color_changed]) ∧
      (∀ e ∈ push_effects Peer.notebook c ++ push_effects Peer.scales c ++
          push_effects Peer.entry c ++
          (if identical c s.color then [] else push_effects Peer.new_color c),
        refresh_of c e) ∧
      (∀ p : Peer, disciplined p 0
        (push_effects Peer.notebook c ++ push_effects Peer.scales c ++
          push_effects Peer.entry c ++
          (if identical c s.color then [] else push_effects Peer.new_color c)) = true) ∧
      notifications (emitted s (gimp_color_selection_set_color identical s (some c))) = 1 ∧
      ∀ p : Peer,
        blocked (gimp_color_selection_set_color identical s (some c)) p = blocked s p) ∧
    ((gimp_color_selection_notebook_changed identical s c).color = c ∧
      emitted s (gimp_color_selection_notebook_changed identical s c) =
        Effect.replace_color c ::
          ((push_effects Peer.scales c ++ push_effects Peer.entry c ++
            (if identical c s.color then [] else push_effects Peer.new_color c)) ++
          [Effect.color_changed]) ∧
      (∀ e ∈ push_effects Peer.scales c ++ push_effects Peer.entry c ++
          (if identical c s.color then [] else push_effects Peer.new_color c),
        refresh_of c e) ∧
      (∀ p : Peer, disciplined p 0
        (push_effects Peer.scales c ++ push_effects Peer.entry c ++
          (if identical c s.color then [] else push_effects Peer.new_color c)) = true) ∧
      notifications (emitted s (gimp_color_selection_notebook_changed identical s c)) = 1 ∧
      ∀ p : Peer,
        blocked (gimp_color_selection_notebook_changed identical s c) p = blocked s p) ∧
    ((gimp_color_selection_scales_changed identical s c).color = c ∧
      emitted s (gimp_color_selection_scales_changed identical s c) =
        Effect.replace_color c ::
          ((push_effects Peer.notebook c ++ push_effects Peer.entry c ++
            (if identical c s.color then [] else push_effects Peer.new_color c)) ++
          [Effect.color_changed]) ∧
      (∀ e ∈ push_effects Peer.notebook c ++ push_effects Peer.entry c ++
          (if identical c s.color then [] else push_effects Peer.new_color c),
        refresh_of c e) ∧
      (∀ p : Peer, disciplined p 0
        (push_effects Peer.notebook c ++ push_effects Peer.entry c ++
          (if identical c s.color then [] else push_effects Peer.new_color c)) = true) ∧
      notifications (emitted s (gimp_color_selection_scales_changed identical s c)) = 1 ∧
      ∀ p : Peer,
        blocked (gimp_color_selection_scales_changed identical s c) p = blocked s p) ∧
    ((gimp_color_selection_entry_changed s).color = s.entry.color ∧
      emitted s (gimp_color_selection_entry_changed s) =
        Effect.replace_color s.entry.color ::
          ((push_effects Peer.notebook s.entry.color ++ push_effects Peer.scales s.entry.color ++
            push_effects Peer.new_color s.entry.color) ++
          [Effect.color_changed]) ∧
      (∀ e ∈ push_effects Peer.notebook s.entry.color ++
          push_effects Peer.scales s.entry.color ++ push_effects Peer.new_color s.entry.color,
        refresh_of s.entry.color e) ∧
      (∀ p : Peer, disciplined p 0
        (push_effects Peer.notebook s.entry.color ++ push_effects Peer.scales s.entry.color ++
          push_effects Peer.new_color s.entry.color) = true) ∧
      notifications (emitted s (gimp_color_selection_entry_changed s)) = 1 ∧
      ∀ p : Peer, blocked (gimp_color_selection_entry_changed s) p = blocked s p) ∧
    ((gimp_color_selection_new_color_changed s).color = s.new_color.color ∧
      emitted s (gimp_color_selection_new_color_changed s) =
        Effect.replace_color s.new_color.color ::
          ((push_effects Peer.notebook s.new_color.color ++
            push_effects Peer.scales s.new_color.color ++
            push_effects Peer.entry s.new_color.color) ++
          [Effect.color_changed]) ∧
      (∀ e ∈ push_effects Peer.notebook s.new_color.color ++
          push_effects Peer.scales s.new_color.color ++
          push_effects Peer.entry s.new_color.color,
        refresh_of s.new_color.color e) ∧
      (∀ p : Peer, disciplined p 0
        (push_effects Peer.notebook s.new_color.color ++
          push_effects Peer.scales s.new_color.color ++
          push_effects Peer.entry s.new_color.color) = true) ∧
      notifications (emitted s (gimp_color_selection_new_color_changed s)) = 1 ∧
      ∀ p : Peer, blocked (gimp_color_selection_new_color_changed s) p = blocked s p) := by
  refine ⟨⟨?_, ?_, ?_, ?_, ?_, ?_⟩, ⟨?_, ?_, ?_, ?_, ?_, ?_⟩, ⟨?_, ?_, ?_, ?_, ?_, ?_⟩,
    ⟨?_, ?_, ?_, ?_, ?_, ?_⟩, ⟨?_, ?_, ?_, ?_, ?_, ?_⟩⟩
  · rw [set_color_eq]
  · rw [emitted_of_log s _ _ (by rw [set_color_eq])]
    simp only [List.append_assoc, List.singleton_append, List.cons_append, List.nil_append]
  · exact refresh_of_append c _ _ (refresh_of_append c _ _ (refresh_of_append c _ _
      (refresh_of_push_effects _ c) (refresh_of_push_effects _ c))
      (refresh_of_push_effects _ c)) (refresh_of_optional_push c _ _)
  · intro p
    cases p <;> cases identical c s.color <;> rfl
  · rw [emitted_of_log s _ _ (by rw [set_color_eq])]
    cases h : identical c s.color <;>
    simp [push_effects, notifications, is_color_changed, List.countP_cons]
  · intro p; rw [set_color_eq]; cases p <;> rfl
  · rw [notebook_changed_eq]
  · rw [emitted_of_log s _ _ (by rw [notebook_changed_eq])]
    simp only [List.append_assoc, List.singleton_append, List.cons_append, List.nil_append]
  · exact refresh_of_append c _ _ (refresh_of_append c _ _
      (refresh_of_push_effects _ c) (refresh_of_push_effects _ c))
      (refresh_of_optional_push c _ _)
  · intro p
    cases p <;> cases identical c s.color <;> rfl
  · rw [emitted_of_log s _ _ (by rw [notebook_changed_eq])]
    cases h : identical c s.color <;>
    simp [push_effects, notifications, is_color_changed, List.countP_cons]
  · intro p; rw [notebook_changed_eq]; cases p <;> rfl
  · rw [scales_changed_eq]
  · rw [emitted_of_log s _ _ (by rw [scales_changed_eq])]
    simp only [List.append_assoc, List.singleton_append, List.cons_append, List.nil_append]
  · exact refresh_of_append c _ _ (refresh_of_append c _ _
      (refresh_of_push_effects _ c) (refresh_of_push_effects _ c))
      (refresh_of_optional_push c _ _)
  · intro p
    cases p <;> cases identical c s.color <;> rfl
  · rw [emitted_of_log s _ _ (by rw [scales_changed_eq])]
    cases h : identical c s.color <;>
    simp [push_effects, notifications, is_color_changed, List.countP_cons]
  · intro p; rw [scales_changed_eq]; cases p <;> rfl
  · rw [entry_changed_eq]
  · rw [emitted_of_log s _ _ (by rw [entry_changed_eq])]
    simp only [List.append_assoc, List.singleton_append, List.cons_append, List.nil_append]
  · exact refresh_of_append _ _ _ (refresh_of_append _ _ _
      (refresh_of_push_effects _ _) (refresh_of_push_effects _ _))
      (refresh_of_push_effects _ _)
  · intro p
    cases p <;> rfl
  · rw [emitted_of_log s _ _ (by rw [entry_changed_eq])]
    simp [push_effects, notifications, is_color_changed, List.countP_cons]
  · intro p; rw [entry_changed_eq]; cases p <;> rfl
  · rw [new_color_changed_eq]
  · rw [emitted_of_log s _ _ (by rw [new_color_changed_eq])]
    simp only [List.append_assoc, List.singleton_append, List.cons_append, List.nil_append]
  · exact refresh_of_append _ _ _ (refresh_of_append _ _ _
      (refresh_of_push_effects _ _) (refresh_of_push_effects _ _))
      (refresh_of_push_effects _ _)
  · intro p
    cases p <;> rfl
  · rw [emitted_of_log s _ _ (by rw [new_color_changed_eq])]
    simp [push_effects, notifications, is_color_changed, List.countP_cons]
  · intro p; rw [new_color_changed_eq]; cases p <;> rfl

end Gimp
